import Mathlib

/-!
Verification of the order-events-schemas library.

The library defines zod schemas for six Kafka event variants
(order.created, order.confirmed, order.shipped, order.cancelled,
payment.authorized, payment.failed), an event factory
(`createOrderEvent` / `createPaymentEvent`) and an inbound validator
(`validateEvent`).

We shallowly embed the runtime values the library operates on as a
JSON-like inductive type `JsValue` (JavaScript `undefined` is a distinct
constructor, numbers are rationals), and each zod schema as a total
checker `JsValue → Except (List ZodIssue) JsValue` returning either the
parsed (unknown-key-stripped) value or the collected list of issues,
mirroring zod 3.22 semantics: object parsing runs every declared field
and concatenates all issues; unknown keys are stripped from the output;
`.parse` throwing a `ZodError` is modelled by the `Except.error` branch.
-/

set_option maxHeartbeats 1000000

/-- JavaScript runtime values as seen by the library (JSON values plus
`undefined`; numbers are modelled as rationals). -/
inductive JsValue where
  | null
  | undef
  | bool (b : Bool)
  | num (q : ℚ)
  | str (s : String)
  | arr (xs : List JsValue)
  | obj (kvs : List (String × JsValue))

/-- One step of a zod issue path: an object key or an array index. -/
inductive PathSeg where
  | key (s : String)
  | idx (n : Nat)
  deriving DecidableEq, Repr

/-- A single zod validation issue: the path of the offending field and a
message describing the violated constraint. -/
structure ZodIssue where
  path : List PathSeg
  message : String
  deriving DecidableEq, Repr

/-- A zod schema, embedded as a total function from an input value to
either the parsed output value or the nonempty list of collected issues. -/
abbrev Checker := JsValue → Except (List ZodIssue) JsValue

/-- The zod `ZodParsedType` name of a value, used in invalid-type messages. -/
def typeName : JsValue → String
  | .null => "null"
  | .undef => "undefined"
  | .bool _ => "boolean"
  | .num _ => "number"
  | .str _ => "string"
  | .arr _ => "array"
  | .obj _ => "object"

/-- JavaScript truthiness (`!v` is the negation of this). `NaN` is not
modelled; numbers are truthy iff nonzero, strings iff nonempty. -/
def jsTruthy : JsValue → Bool
  | .null => false
  | .undef => false
  | .bool b => b
  | .num q => if q = 0 then false else true
  | .str s => if s = "" then false else true
  | .arr _ => true
  | .obj _ => true

/-- Whether `typeof v` is the string `"object"` (true for null, arrays
and plain objects). -/
def jsTypeofObject : JsValue → Bool
  | .null => true
  | .arr _ => true
  | .obj _ => true
  | _ => false

/-- String coercion used by JavaScript template literals (arrays join
their coerced elements with commas). -/
def jsDisplay : JsValue → String
  | .null => "null"
  | .undef => "undefined"
  | .bool b => cond b "true" "false"
  | .num q => toString q
  | .str s => s
  | .obj _ => "[object Object]"
  | .arr xs => String.intercalate "," (xs.attach.map fun x => jsDisplay x.1)
decreasing_by
  have := List.sizeOf_lt_of_mem x.2
  simp only [JsValue.arr.sizeOf_spec]
  omega

/-- JavaScript property read on an object literal: the value of the first
binding of the key, or `none` when the key is absent. -/
def lookupKey (k : String) : List (String × JsValue) → Option JsValue
  | [] => none
  | (k0, v) :: rest => if k0 = k then some v else lookupKey k rest

/-- The view zod takes of an object field: a key bound to `undefined` is
treated exactly like an absent key. -/
def lookupField (kvs : List (String × JsValue)) (k : String) : Option JsValue :=
  match lookupKey k kvs with
  | some .undef => none
  | some v => some v
  | none => none

/-- Prepend a path segment to an issue, as zod does when it descends into
an object field or an array element. -/
def prefixIssue (seg : PathSeg) (i : ZodIssue) : ZodIssue :=
  ⟨seg :: i.path, i.message⟩

/-- The numeric zod checks used by the library schemas:
`.int()`, `.positive()`, `.nonnegative()`. -/
inductive NumCheck where
  | int
  | positive
  | nonnegative
  deriving DecidableEq, Repr

/-- Whether a numeric check passes on a number (zod `.int()` is
`Number.isInteger`, modelled as having denominator 1). -/
def numCheckPasses : NumCheck → ℚ → Bool
  | .int, q => decide (q.den = 1)
  | .positive, q => decide (0 < q)
  | .nonnegative, q => decide (0 ≤ q)

/-- The zod issue message for a failed numeric check. -/
def numCheckMsg : NumCheck → String
  | .int => "Expected integer, received float"
  | .positive => "Number must be greater than 0"
  | .nonnegative => "Number must be greater than or equal to 0"

/-- All issues produced by running a list of numeric checks on a number;
zod runs every check and collects every failure. -/
def numIssues (checks : List NumCheck) (q : ℚ) : List ZodIssue :=
  checks.foldr (fun c acc => if numCheckPasses c q then acc else ⟨[], numCheckMsg c⟩ :: acc) []

/-- Embedding of `z.number()` with a list of chained checks. -/
def zNumber (checks : List NumCheck) : Checker := fun v =>
  match v with
  | .num q => if (numIssues checks q).isEmpty then .ok (.num q) else .error (numIssues checks q)
  | v => .error [⟨[], "Expected number, received " ++ typeName v⟩]

/-- Checks whose version differs per UUID variant are below; first the
string checks used by the library: `.min(n)`, `.uuid()`, `.datetime()`. -/
inductive StrCheck where
  | min (n : Nat)
  | uuid
  | datetime
  deriving DecidableEq, Repr

/-- Consume exactly `n` decimal digits from the front of a char list. -/
def takeDigits : Nat → List Char → Option (List Char)
  | 0, cs => some cs
  | _ + 1, [] => none
  | n + 1, c :: cs => if c.isDigit then takeDigits n cs else none

/-- Consume one expected character from the front of a char list. -/
def takeChar (ch : Char) : List Char → Option (List Char)
  | [] => none
  | c :: cs => if c = ch then some cs else none

/-- Whether a character is a hexadecimal digit (either case), per the
case-insensitive zod UUID regular expression. -/
def isHexChar (c : Char) : Bool :=
  c.isDigit || ('a' ≤ c && c ≤ 'f') || ('A' ≤ c && c ≤ 'F')

/-- Consume exactly `n` hexadecimal digits from the front of a char list. -/
def takeHex : Nat → List Char → Option (List Char)
  | 0, cs => some cs
  | _ + 1, [] => none
  | n + 1, c :: cs => if isHexChar c then takeHex n cs else none

/-- The zod 3.22 `.uuid()` lexical check: five hyphen-separated hex groups
of sizes 8-4-4-4-12 whose third group starts with a version digit 1-5, or
the all-zero nil UUID. -/
def zodUuidCheck (s : String) : Bool :=
  s = "00000000-0000-0000-0000-000000000000" ||
  (Option.isSome (do
    let cs := s.data
    let cs ← takeHex 8 cs
    let cs ← takeChar '-' cs
    let cs ← takeHex 4 cs
    let cs ← takeChar '-' cs
    let cs ← (match cs with
      | c :: rest => if '1' ≤ c && c ≤ '5' then some rest else none
      | [] => none)
    let cs ← takeHex 3 cs
    let cs ← takeChar '-' cs
    let cs ← takeHex 4 cs
    let cs ← takeChar '-' cs
    let cs ← takeHex 12 cs
    match cs with
    | [] => some ()
    | _ => none))

/-- After the seconds field of a datetime: either a terminating `Z`, or a
dot, at least one fractional digit, then the terminating `Z`. -/
def fracDigitsThenZ : List Char → Bool
  | ['Z'] => true
  | c :: rest => c.isDigit && fracDigitsThenZ rest
  | [] => false

/-- Tail of the zod datetime pattern after `hh:mm:ss`. -/
def datetimeTail : List Char → Bool
  | ['Z'] => true
  | '.' :: c :: rest => c.isDigit && fracDigitsThenZ rest
  | _ => false

/-- The zod 3.22 `.datetime()` (no options) lexical check:
`dddd-dd-ddThh:mm:ss(.d+)?Z`. -/
def zodDatetimeCheck (s : String) : Bool :=
  Option.isSome (do
    let cs := s.data
    let cs ← takeDigits 4 cs
    let cs ← takeChar '-' cs
    let cs ← takeDigits 2 cs
    let cs ← takeChar '-' cs
    let cs ← takeDigits 2 cs
    let cs ← takeChar 'T' cs
    let cs ← takeDigits 2 cs
    let cs ← takeChar ':' cs
    let cs ← takeDigits 2 cs
    let cs ← takeChar ':' cs
    let cs ← takeDigits 2 cs
    if datetimeTail cs then some () else none)

/-- Whether a string check passes. -/
def strCheckPasses : StrCheck → String → Bool
  | .min n, s => decide (n ≤ s.length)
  | .uuid, s => zodUuidCheck s
  | .datetime, s => zodDatetimeCheck s

/-- The zod issue message for a failed string check. -/
def strCheckMsg : StrCheck → String
  | .min _ => "String must contain at least 1 character(s)"
  | .uuid => "Invalid uuid"
  | .datetime => "Invalid datetime"

/-- All issues produced by running a list of string checks on a string. -/
def strIssues (checks : List StrCheck) (s : String) : List ZodIssue :=
  checks.foldr (fun c acc => if strCheckPasses c s then acc else ⟨[], strCheckMsg c⟩ :: acc) []

/-- Embedding of `z.string()` with a list of chained checks. -/
def zString (checks : List StrCheck) : Checker := fun v =>
  match v with
  | .str s => if (strIssues checks s).isEmpty then .ok (.str s) else .error (strIssues checks s)
  | v => .error [⟨[], "Expected string, received " ++ typeName v⟩]

/-- Embedding of `z.boolean()`. -/
def zBoolean : Checker := fun v =>
  match v with
  | .bool b => .ok (.bool b)
  | v => .error [⟨[], "Expected boolean, received " ++ typeName v⟩]

/-- Embedding of `z.literal(tag)` for a string tag: only the exact string
passes, every other value is an invalid-literal issue. -/
def zLiteral (tag : String) : Checker := fun v =>
  match v with
  | .str s =>
    if s = tag then .ok (.str s)
    else .error [⟨[], "Invalid literal value, expected " ++ tag⟩]
  | _ => .error [⟨[], "Invalid literal value, expected " ++ tag⟩]

/-- Embedding of `z.enum(options)`: a string member of the option list. -/
def zEnum (options : List String) : Checker := fun v =>
  match v with
  | .str s => if s ∈ options then .ok (.str s) else .error [⟨[], "Invalid enum value"⟩]
  | _ => .error [⟨[], "Invalid enum value"⟩]

/-- One declared field of a `z.object` shape: its key, whether it is
wrapped in `.optional()`, and its value schema. -/
structure ZField where
  name : String
  optional : Bool
  check : Checker

/-- The issues a single declared field contributes: a missing (or
`undefined`) required field is a `Required` issue; a present field runs
its schema with the issues prefixed by the key; a missing optional field
contributes nothing. -/
def fieldIssues (kvs : List (String × JsValue)) (f : ZField) : List ZodIssue :=
  match lookupField kvs f.name with
  | some fv =>
    match f.check fv with
    | .ok _ => []
    | .error is => is.map (prefixIssue (.key f.name))
  | none => if f.optional then [] else [⟨[.key f.name], "Required"⟩]

/-- The output binding a single declared field contributes (present and
valid fields only; unknown keys never appear since only declared fields
are consulted — zod default "strip" mode). -/
def fieldOutput (kvs : List (String × JsValue)) (f : ZField) : Option (String × JsValue) :=
  match lookupField kvs f.name with
  | some fv =>
    match f.check fv with
    | .ok pv => some (f.name, pv)
    | .error _ => none
  | none => none

/-- All issues of an object shape on a given input object: the
concatenation over every declared field — zod does not stop at the first
failing field. -/
def objIssues (fields : List ZField) (kvs : List (String × JsValue)) : List ZodIssue :=
  (fields.map (fun f => fieldIssues kvs f)).flatten

/-- The stripped output object of an object shape on a given input. -/
def objOutput (fields : List ZField) (kvs : List (String × JsValue)) : List (String × JsValue) :=
  fields.filterMap (fun f => fieldOutput kvs f)

/-- Embedding of `z.object(shape)` in the default "strip" mode. -/
def zObject (fields : List ZField) : Checker := fun v =>
  match v with
  | .obj kvs =>
    if (objIssues fields kvs).isEmpty then .ok (.obj (objOutput fields kvs))
    else .error (objIssues fields kvs)
  | v => .error [⟨[], "Expected object, received " ++ typeName v⟩]

/-- Element issues of `z.array(item)`: every element is checked and its
issues are prefixed with the element index. -/
def elemIssuesAux (item : Checker) : Nat → List JsValue → List ZodIssue
  | _, [] => []
  | i, x :: xs =>
    (match item x with
     | .ok _ => []
     | .error is => is.map (prefixIssue (.idx i))) ++ elemIssuesAux item (i + 1) xs

/-- Parsed elements of a successfully validated array (on a failing
element the input is kept, but that branch is unreachable on success). -/
def parseElems (item : Checker) : List JsValue → List JsValue
  | [] => []
  | x :: xs =>
    (match item x with
     | .ok y => y
     | .error _ => x) :: parseElems item xs

/-- All issues collected by `z.array(item).min(minLen)` on an array: the
length check plus every element's issues. -/
def zArrayIssues (minLen : Nat) (item : Checker) (xs : List JsValue) : List ZodIssue :=
  (if xs.length < minLen then
    [⟨[], "Array must contain at least " ++ toString minLen ++ " element(s)"⟩]
  else []) ++ elemIssuesAux item 0 xs

/-- Embedding of `z.array(item).min(minLen)`: an array whose length
reaches the minimum and all of whose elements pass the item schema. -/
def zArray (minLen : Nat) (item : Checker) : Checker := fun v =>
  match v with
  | .arr xs =>
    if (zArrayIssues minLen item xs).isEmpty then .ok (.arr (parseElems item xs))
    else .error (zArrayIssues minLen item xs)
  | v => .error [⟨[], "Expected array, received " ++ typeName v⟩]

/-!
Event type tags. The four order tags are from `src/events/base.ts`; the
two payment tags appear in the payment schema files and are pinned by the
repository's tests (`EVENT_TYPES.PAYMENT_AUTHORIZED` is the string
`payment.authorized`); the six-tag revision of `base.ts` itself is not in
the source snapshot, so the two payment constants are modelled from the
spec and tests.
-/

namespace EVENT_TYPES

def ORDER_CREATED : String := "order.created"

def ORDER_CONFIRMED : String := "order.confirmed"

def ORDER_SHIPPED : String := "order.shipped"

def ORDER_CANCELLED : String := "order.cancelled"

/-- Modelled from the spec: tag of the payment.authorized variant (the
six-tag `base.ts` is missing from the snapshot; the value is pinned by
`z.literal(EVENT_TYPES.PAYMENT_AUTHORIZED)` and the test
`expect(EVENT_TYPES.PAYMENT_AUTHORIZED).toBe('payment.authorized')`). -/
def PAYMENT_AUTHORIZED : String := "payment.authorized"

/-- Modelled from the spec: tag of the payment.failed variant (same
provenance as `PAYMENT_AUTHORIZED`). -/
def PAYMENT_FAILED : String := "payment.failed"

end EVENT_TYPES

/-- The shared base fields after `.extend` replaced `type` with the
variant's literal tag: every event schema is this plus a `data` field. -/
def BaseEventFields (tag : String) : List ZField :=
  [⟨"type", false, zLiteral tag⟩,
   ⟨"orderId", false, zNumber [.int, .positive]⟩,
   ⟨"userId", false, zNumber [.int, .positive]⟩,
   ⟨"correlationId", false, zString [.uuid]⟩,
   ⟨"timestamp", false, zString [.datetime]⟩]

/-- The `BaseEventSchema` of `src/events/base.ts` itself (type is a
four-member enum before any `.extend`). -/
def BaseEventSchema : Checker :=
  zObject
    [⟨"type", false, zEnum [EVENT_TYPES.ORDER_CREATED, EVENT_TYPES.ORDER_CONFIRMED,
        EVENT_TYPES.ORDER_SHIPPED, EVENT_TYPES.ORDER_CANCELLED]⟩,
     ⟨"orderId", false, zNumber [.int, .positive]⟩,
     ⟨"userId", false, zNumber [.int, .positive]⟩,
     ⟨"correlationId", false, zString [.uuid]⟩,
     ⟨"timestamp", false, zString [.datetime]⟩]

/-- Shape of `OrderItemSchema` (`src/events/order-created.ts`). -/
def OrderItemFields : List ZField :=
  [⟨"productId", false, zNumber [.int, .positive]⟩,
   ⟨"quantity", false, zNumber [.int, .positive]⟩,
   ⟨"price", false, zNumber [.positive]⟩]

/-- Embedding of `OrderItemSchema`. -/
def OrderItemSchema : Checker := zObject OrderItemFields

/-- Shape of `OrderCreatedDataSchema`: non-empty item list, positive
total, optional shipping address. -/
def OrderCreatedDataFields : List ZField :=
  [⟨"items", false, zArray 1 OrderItemSchema⟩,
   ⟨"totalAmount", false, zNumber [.positive]⟩,
   ⟨"shippingAddress", true, zString []⟩]

/-- Embedding of `OrderCreatedDataSchema`. -/
def OrderCreatedDataSchema : Checker := zObject OrderCreatedDataFields

/-- Shape of the complete `OrderCreatedSchema`. -/
def OrderCreatedFields : List ZField :=
  BaseEventFields EVENT_TYPES.ORDER_CREATED ++ [⟨"data", false, OrderCreatedDataSchema⟩]

/-- Embedding of `OrderCreatedSchema`. -/
def OrderCreatedSchema : Checker := zObject OrderCreatedFields

/-- Shape of `OrderConfirmedDataSchema`: non-empty item list, positive
total, optional payment id. -/
def OrderConfirmedDataFields : List ZField :=
  [⟨"items", false, zArray 1 OrderItemSchema⟩,
   ⟨"totalAmount", false, zNumber [.positive]⟩,
   ⟨"paymentId", true, zString []⟩]

/-- Embedding of `OrderConfirmedDataSchema`. -/
def OrderConfirmedDataSchema : Checker := zObject OrderConfirmedDataFields

/-- Shape of the complete `OrderConfirmedSchema`. -/
def OrderConfirmedFields : List ZField :=
  BaseEventFields EVENT_TYPES.ORDER_CONFIRMED ++ [⟨"data", false, OrderConfirmedDataSchema⟩]

/-- Embedding of `OrderConfirmedSchema`. -/
def OrderConfirmedSchema : Checker := zObject OrderConfirmedFields

/-- Shape of `OrderShippedDataSchema`: every payload field optional. -/
def OrderShippedDataFields : List ZField :=
  [⟨"trackingNumber", true, zString []⟩,
   ⟨"carrier", true, zString []⟩,
   ⟨"estimatedDelivery", true, zString [.datetime]⟩]

/-- Embedding of `OrderShippedDataSchema`. -/
def OrderShippedDataSchema : Checker := zObject OrderShippedDataFields

/-- Shape of the complete `OrderShippedSchema`. -/
def OrderShippedFields : List ZField :=
  BaseEventFields EVENT_TYPES.ORDER_SHIPPED ++ [⟨"data", false, OrderShippedDataSchema⟩]

/-- Embedding of `OrderShippedSchema`. -/
def OrderShippedSchema : Checker := zObject OrderShippedFields

/-- Shape of `OrderCancelledDataSchema` exactly as in
`src/events/order-cancelled.ts`: note that `reason` is `z.string()`
without `.min(1)`, so the empty string passes this schema. -/
def OrderCancelledDataFields : List ZField :=
  [⟨"reason", false, zString []⟩,
   ⟨"cancelledBy", false, zEnum ["user", "system", "admin"]⟩,
   ⟨"refundAmount", true, zNumber [.nonnegative]⟩]

/-- Embedding of `OrderCancelledDataSchema`. -/
def OrderCancelledDataSchema : Checker := zObject OrderCancelledDataFields

/-- Shape of the complete `OrderCancelledSchema`. -/
def OrderCancelledFields : List ZField :=
  BaseEventFields EVENT_TYPES.ORDER_CANCELLED ++ [⟨"data", false, OrderCancelledDataSchema⟩]

/-- Embedding of `OrderCancelledSchema`. -/
def OrderCancelledSchema : Checker := zObject OrderCancelledFields

/-- Shape of `PaymentAuthorizedDataSchema`: non-empty transaction id,
positive amount, non-empty currency. -/
def PaymentAuthorizedDataFields : List ZField :=
  [⟨"transactionId", false, zString [.min 1]⟩,
   ⟨"amount", false, zNumber [.positive]⟩,
   ⟨"currency", false, zString [.min 1]⟩]

/-- Embedding of `PaymentAuthorizedDataSchema`. -/
def PaymentAuthorizedDataSchema : Checker := zObject PaymentAuthorizedDataFields

/-- Shape of the complete `PaymentAuthorizedSchema`. -/
def PaymentAuthorizedFields : List ZField :=
  BaseEventFields EVENT_TYPES.PAYMENT_AUTHORIZED ++ [⟨"data", false, PaymentAuthorizedDataSchema⟩]

/-- Embedding of `PaymentAuthorizedSchema`. -/
def PaymentAuthorizedSchema : Checker := zObject PaymentAuthorizedFields

/-- Shape of `PaymentFailedDataSchema`: non-empty reason, boolean
retryable flag. -/
def PaymentFailedDataFields : List ZField :=
  [⟨"reason", false, zString [.min 1]⟩,
   ⟨"retryable", false, zBoolean⟩]

/-- Embedding of `PaymentFailedDataSchema`. -/
def PaymentFailedDataSchema : Checker := zObject PaymentFailedDataFields

/-- Shape of the complete `PaymentFailedSchema`. -/
def PaymentFailedFields : List ZField :=
  BaseEventFields EVENT_TYPES.PAYMENT_FAILED ++ [⟨"data", false, PaymentFailedDataSchema⟩]

/-- Embedding of `PaymentFailedSchema`. -/
def PaymentFailedSchema : Checker := zObject PaymentFailedFields

/-- The closed tag-to-shape registry realised by the dispatch switch of
`validateEvent`, in switch order. -/
def eventSchemas : List (String × List ZField) :=
  [(EVENT_TYPES.ORDER_CREATED, OrderCreatedFields),
   (EVENT_TYPES.ORDER_CONFIRMED, OrderConfirmedFields),
   (EVENT_TYPES.ORDER_SHIPPED, OrderShippedFields),
   (EVENT_TYPES.ORDER_CANCELLED, OrderCancelledFields),
   (EVENT_TYPES.PAYMENT_AUTHORIZED, PaymentAuthorizedFields),
   (EVENT_TYPES.PAYMENT_FAILED, PaymentFailedFields)]

/-- The declared top-level keys shared by all six event schemas. -/
def topLevelKeys : List String :=
  ["type", "orderId", "userId", "correlationId", "timestamp", "data"]

/-- The error carried by a failing `ValidationResult`: either a plain
`new Error(message)` (envelope or unknown-type failures) or the caught
`ZodError` with its collected issues. -/
inductive ValidationError where
  | error (message : String)
  | zodError (issues : List ZodIssue)
  deriving Repr

/-- The result of `validateEvent`: a discriminated union carrying the
narrowed event on success and the error on failure. -/
inductive ValidationResult where
  | success (data : JsValue)
  | failure (error : ValidationError)

/-- Wrapping of a zod `.parse` call inside the `try`/`catch` of
`validateEvent`: a parse success becomes the success result, a thrown
`ZodError` is caught and returned as the failure result. -/
def ofZod (r : Except (List ZodIssue) JsValue) : ValidationResult :=
  match r with
  | .ok d => .success d
  | .error is => .failure (.zodError is)

/-- The `type` property of the incoming value (only plain objects carry
properties in this model). -/
def typeProp : JsValue → Option JsValue
  | .obj kvs => lookupKey "type" kvs
  | _ => none

/-- Embedding of `validateEvent` (`helpers/create-event.ts`, six-variant
revision): envelope guards, then the type switch, each schema parse
wrapped by the surrounding `try`/`catch`. -/
def validateEvent (event : JsValue) : ValidationResult :=
  if !jsTruthy event || !jsTypeofObject event then
    .failure (.error "Event must be a non-null object")
  else
    match typeProp event with
    | none => .failure (.error "Event type is required")
    | some tv =>
      if !jsTruthy tv then .failure (.error "Event type is required")
      else
        match tv with
        | .str s =>
          if s = EVENT_TYPES.ORDER_CREATED then ofZod (OrderCreatedSchema event)
          else if s = EVENT_TYPES.ORDER_CONFIRMED then ofZod (OrderConfirmedSchema event)
          else if s = EVENT_TYPES.ORDER_SHIPPED then ofZod (OrderShippedSchema event)
          else if s = EVENT_TYPES.ORDER_CANCELLED then ofZod (OrderCancelledSchema event)
          else if s = EVENT_TYPES.PAYMENT_AUTHORIZED then ofZod (PaymentAuthorizedSchema event)
          else if s = EVENT_TYPES.PAYMENT_FAILED then ofZod (PaymentFailedSchema event)
          else .failure (.error ("Unknown event type: " ++ s))
        | tv => .failure (.error ("Unknown event type: " ++ jsDisplay tv))

/-- The caller-supplied factory parameters: `correlationId` and
`timestamp` are optional (`none` models an absent / `undefined`
argument, `some ""` models an explicitly supplied empty string). -/
structure CreateEventParams where
  orderId : ℚ
  userId : ℚ
  data : JsValue
  correlationId : Option String
  timestamp : Option String

/-- The candidate event assembled by the six-variant factory before
validation; `correlationId ?? randomUUID()` and
`timestamp ?? new Date().toISOString()` keep any supplied value (empty
string included) and fall back to the generated one only when the
parameter is absent. The two generated values are passed in explicitly
(`genUuid`, `genTs`) since they are the factory's only nondeterminism. -/
def buildBaseEvent (ty : String) (p : CreateEventParams) (genUuid genTs : String) : JsValue :=
  .obj [("type", .str ty),
        ("orderId", .num p.orderId),
        ("userId", .num p.userId),
        ("correlationId", .str (p.correlationId.getD genUuid)),
        ("timestamp", .str (p.timestamp.getD genTs)),
        ("data", p.data)]

/-- A `schema.parse` call outside any `try`/`catch`: an `Except.error`
models the thrown error propagating to the factory caller. -/
def parseOrThrow (r : Except (List ZodIssue) JsValue) : Except ValidationError JsValue :=
  match r with
  | .ok d => .ok d
  | .error is => .error (.zodError is)

/-- Embedding of the six-variant `createOrderEvent`: assemble the
candidate, then parse with the schema selected by the switch; an unknown
tag throws an unknown-event-type `Error`. -/
def createOrderEvent (ty : String) (p : CreateEventParams) (genUuid genTs : String) :
    Except ValidationError JsValue :=
  let baseEvent := buildBaseEvent ty p genUuid genTs
  if ty = EVENT_TYPES.ORDER_CREATED then parseOrThrow (OrderCreatedSchema baseEvent)
  else if ty = EVENT_TYPES.ORDER_CONFIRMED then parseOrThrow (OrderConfirmedSchema baseEvent)
  else if ty = EVENT_TYPES.ORDER_SHIPPED then parseOrThrow (OrderShippedSchema baseEvent)
  else if ty = EVENT_TYPES.ORDER_CANCELLED then parseOrThrow (OrderCancelledSchema baseEvent)
  else .error (.error ("Unknown event type: " ++ ty))

/-- Embedding of `createPaymentEvent` (same assembly, two-way switch). -/
def createPaymentEvent (ty : String) (p : CreateEventParams) (genUuid genTs : String) :
    Except ValidationError JsValue :=
  let baseEvent := buildBaseEvent ty p genUuid genTs
  if ty = EVENT_TYPES.PAYMENT_AUTHORIZED then parseOrThrow (PaymentAuthorizedSchema baseEvent)
  else if ty = EVENT_TYPES.PAYMENT_FAILED then parseOrThrow (PaymentFailedSchema baseEvent)
  else .error (.error ("Unknown event type: " ++ ty))

/-- JavaScript `a || b` on an optional string: the default is used both
when the value is absent and when it is falsy (the empty string). -/
def jsOrElse (s : Option String) (dflt : String) : String :=
  match s with
  | some c => if c = "" then dflt else c
  | none => dflt

namespace V1

/-!
The legacy four-variant helper `src/helpers/create-event.ts`, which uses
the falsy check `correlationId || randomUUID()` (and likewise for
`timestamp`) instead of the null-coalescing check of the six-variant
revision.
-/

/-- Candidate event assembled by the legacy factory: a supplied but
empty `correlationId`/`timestamp` is silently replaced by the generated
value because of the `||` falsy check. -/
def buildBaseEvent (ty : String) (p : CreateEventParams) (genUuid genTs : String) : JsValue :=
  .obj [("type", .str ty),
        ("orderId", .num p.orderId),
        ("userId", .num p.userId),
        ("correlationId", .str (jsOrElse p.correlationId genUuid)),
        ("timestamp", .str (jsOrElse p.timestamp genTs)),
        ("data", p.data)]

/-- Embedding of the legacy `createOrderEvent` (four order variants, no
payment events). -/
def createOrderEvent (ty : String) (p : CreateEventParams) (genUuid genTs : String) :
    Except ValidationError JsValue :=
  let baseEvent := V1.buildBaseEvent ty p genUuid genTs
  if ty = EVENT_TYPES.ORDER_CREATED then parseOrThrow (OrderCreatedSchema baseEvent)
  else if ty = EVENT_TYPES.ORDER_CONFIRMED then parseOrThrow (OrderConfirmedSchema baseEvent)
  else if ty = EVENT_TYPES.ORDER_SHIPPED then parseOrThrow (OrderShippedSchema baseEvent)
  else if ty = EVENT_TYPES.ORDER_CANCELLED then parseOrThrow (OrderCancelledSchema baseEvent)
  else .error (.error ("Unknown event type: " ++ ty))

/-- Embedding of the legacy `validateEvent` (four-variant switch). -/
def validateEvent (event : JsValue) : ValidationResult :=
  if !jsTruthy event || !jsTypeofObject event then
    .failure (.error "Event must be a non-null object")
  else
    match typeProp event with
    | none => .failure (.error "Event type is required")
    | some tv =>
      if !jsTruthy tv then .failure (.error "Event type is required")
      else
        match tv with
        | .str s =>
          if s = EVENT_TYPES.ORDER_CREATED then ofZod (OrderCreatedSchema event)
          else if s = EVENT_TYPES.ORDER_CONFIRMED then ofZod (OrderConfirmedSchema event)
          else if s = EVENT_TYPES.ORDER_SHIPPED then ofZod (OrderShippedSchema event)
          else if s = EVENT_TYPES.ORDER_CANCELLED then ofZod (OrderCancelledSchema event)
          else .failure (.error ("Unknown event type: " ++ s))
        | tv => .failure (.error ("Unknown event type: " ++ jsDisplay tv))

end V1


/-!
Concrete values used by the claim theorems and witnesses.
-/

/-- A well-formed UUID v4 string (version nibble 4, variant a). -/
def uuidOk : String := "123e4567-e89b-42d3-a456-426614174000"

/-- A well-formed ISO-8601 UTC datetime string with millisecond
precision. -/
def tsOk : String := "2024-01-15T10:30:00.000Z"

/-- Base bindings of a concrete event, in schema declaration order. -/
def baseKvs (tag : String) (data : JsValue) : List (String × JsValue) :=
  [("type", .str tag), ("orderId", .num 1), ("userId", .num 2),
   ("correlationId", .str uuidOk), ("timestamp", .str tsOk), ("data", data)]

/-- The spec scenario input for the empty-reason claim: an otherwise
valid order.cancelled event whose data.reason is the empty string. -/
def emptyReasonEvent : JsValue :=
  .obj [("type", .str "order.cancelled"),
        ("orderId", .num 1),
        ("userId", .num 1),
        ("correlationId", .str uuidOk),
        ("timestamp", .str tsOk),
        ("data", .obj [("reason", .str ""), ("cancelledBy", .str "user")])]

/-- A well-formed order item. -/
def itemOkV : JsValue :=
  .obj [("productId", .num 1), ("quantity", .num 2), ("price", .num 20)]

/-- Minimal valid order.created event (optional fields absent). -/
def evCreated : JsValue :=
  .obj (baseKvs EVENT_TYPES.ORDER_CREATED (.obj [("items", .arr [itemOkV]), ("totalAmount", .num 40)]))

/-- Minimal valid order.confirmed event. -/
def evConfirmed : JsValue :=
  .obj (baseKvs EVENT_TYPES.ORDER_CONFIRMED (.obj [("items", .arr [itemOkV]), ("totalAmount", .num 40)]))

/-- Bindings of the minimal valid order.shipped event (all payload
fields optional, so the payload is the empty object). -/
def shippedKvs : List (String × JsValue) := baseKvs EVENT_TYPES.ORDER_SHIPPED (.obj [])

/-- Minimal valid order.shipped event. -/
def evShipped : JsValue := .obj shippedKvs

/-- Minimal valid order.cancelled event. -/
def evCancelled : JsValue :=
  .obj (baseKvs EVENT_TYPES.ORDER_CANCELLED
    (.obj [("reason", .str "changed mind"), ("cancelledBy", .str "user")]))

/-- Minimal valid payment.authorized event. -/
def evPayAuthorized : JsValue :=
  .obj (baseKvs EVENT_TYPES.PAYMENT_AUTHORIZED
    (.obj [("transactionId", .str "tx-1"), ("amount", .num 10), ("currency", .str "USD")]))

/-- Minimal valid payment.failed event. -/
def evPayFailed : JsValue :=
  .obj (baseKvs EVENT_TYPES.PAYMENT_FAILED
    (.obj [("reason", .str "declined"), ("retryable", .bool true)]))

/-- Valid order.cancelled payload used in the factory scenarios. -/
def cancelData : JsValue :=
  .obj [("reason", .str "changed mind"), ("cancelledBy", .str "user")]

/-- Factory parameters that explicitly supply an empty correlationId
(and a valid timestamp). -/
def emptyCorrParams : CreateEventParams := ⟨1, 2, cancelData, some "", some tsOk⟩

/-- The orderId base field, shared by every event schema. -/
def orderIdField : ZField := ⟨"orderId", false, zNumber [.int, .positive]⟩

/-- The userId base field, shared by every event schema. -/
def userIdField : ZField := ⟨"userId", false, zNumber [.int, .positive]⟩

/-- Bindings of an order.cancelled event violating two distinct fields
(orderId is 0 and data.cancelledBy is not in the enum). -/
def twoBadKvs : List (String × JsValue) :=
  [("type", .str "order.cancelled"),
   ("orderId", .num 0),
   ("userId", .num 2),
   ("correlationId", .str uuidOk),
   ("timestamp", .str tsOk),
   ("data", .obj [("reason", .str "r"), ("cancelledBy", .str "bogus")])]

/-- Bindings of an order.shipped event whose orderId is 0. -/
def badIdKvs : List (String × JsValue) :=
  [("type", .str "order.shipped"),
   ("orderId", .num 0),
   ("userId", .num 2),
   ("correlationId", .str uuidOk),
   ("timestamp", .str tsOk),
   ("data", .obj [])]

/-- Bindings of an order.created event with an empty items list. -/
def emptyItemsKvs : List (String × JsValue) :=
  baseKvs EVENT_TYPES.ORDER_CREATED (.obj [("items", .arr []), ("totalAmount", .num 40)])

/-!
Helper lemmas about the zod combinators.
-/

/-- Appending a binding for a different key does not change a lookup. -/
theorem lookupKey_append_of_ne (k k0 : String) (h : k ≠ k0) (kvs : List (String × JsValue))
    (v : JsValue) : lookupKey k (kvs ++ [(k0, v)]) = lookupKey k kvs := by
  induction kvs with
  | nil => simp [lookupKey, Ne.symm h]
  | cons hd tl ih =>
    cases hd with
    | mk k1 v1 =>
      by_cases hk : k1 = k
      · simp [lookupKey, hk]
      · simp [lookupKey, hk, ih]

/-- Appending a binding for a different key does not change zod's view of
a field. -/
theorem lookupField_append_of_ne (k k0 : String) (h : k ≠ k0) (kvs : List (String × JsValue))
    (v : JsValue) : lookupField (kvs ++ [(k0, v)]) k = lookupField kvs k := by
  unfold lookupField
  rw [lookupKey_append_of_ne k k0 h kvs v]

/-- A field's issues are unchanged by an extra binding under another key. -/
theorem fieldIssues_append_of_ne (f : ZField) (k0 : String) (h : f.name ≠ k0)
    (kvs : List (String × JsValue)) (v : JsValue) :
    fieldIssues (kvs ++ [(k0, v)]) f = fieldIssues kvs f := by
  unfold fieldIssues
  rw [lookupField_append_of_ne f.name k0 h kvs v]

/-- A field's output binding is unchanged by an extra binding under
another key. -/
theorem fieldOutput_append_of_ne (f : ZField) (k0 : String) (h : f.name ≠ k0)
    (kvs : List (String × JsValue)) (v : JsValue) :
    fieldOutput (kvs ++ [(k0, v)]) f = fieldOutput kvs f := by
  unfold fieldOutput
  rw [lookupField_append_of_ne f.name k0 h kvs v]

/-- The collected issues of an object shape ignore a binding whose key is
not a declared field name. -/
theorem objIssues_append_of_ne (fields : List ZField) (k0 : String)
    (h : ∀ f ∈ fields, f.name ≠ k0) (kvs : List (String × JsValue)) (v : JsValue) :
    objIssues fields (kvs ++ [(k0, v)]) = objIssues fields kvs := by
  unfold objIssues
  exact congrArg List.flatten
    (List.map_congr_left fun f hf => fieldIssues_append_of_ne f k0 (h f hf) kvs v)

/-- The stripped output of an object shape ignores a binding whose key is
not a declared field name. -/
theorem objOutput_append_of_ne (fields : List ZField) (k0 : String)
    (h : ∀ f ∈ fields, f.name ≠ k0) (kvs : List (String × JsValue)) (v : JsValue) :
    objOutput fields (kvs ++ [(k0, v)]) = objOutput fields kvs := by
  unfold objOutput
  induction fields with
  | nil => rfl
  | cons f fs ih =>
    simp only [List.filterMap_cons]
    rw [fieldOutput_append_of_ne f k0 (h f (List.mem_cons_self f fs)) kvs v,
      ih (fun g hg => h g (List.Mem.tail f hg))]

/-- An object schema ignores a binding whose key is not a declared field
name: the result on the extended object equals the result on the original. -/
theorem zObject_append_of_ne (fields : List ZField) (k0 : String)
    (h : ∀ f ∈ fields, f.name ≠ k0) (kvs : List (String × JsValue)) (v : JsValue) :
    zObject fields (.obj (kvs ++ [(k0, v)])) = zObject fields (.obj kvs) := by
  simp only [zObject, objIssues_append_of_ne fields k0 h kvs v,
    objOutput_append_of_ne fields k0 h kvs v]

/-- A declared field's issues all appear among the object's collected
issues: zod reports every violated field, not only the first. -/
theorem fieldIssues_subset_objIssues (fields : List ZField) (kvs : List (String × JsValue))
    (f : ZField) (hf : f ∈ fields) : fieldIssues kvs f ⊆ objIssues fields kvs := by
  intro i hi
  exact List.mem_flatten.mpr ⟨fieldIssues kvs f, List.mem_map_of_mem _ hf, hi⟩

/-- If any declared field is violated, the whole object schema fails and
returns the full collected issue list. -/
theorem zObject_error_of_field (fields : List ZField) (kvs : List (String × JsValue))
    (f : ZField) (hf : f ∈ fields) (hbad : fieldIssues kvs f ≠ []) :
    zObject fields (.obj kvs) = .error (objIssues fields kvs) ∧
      objIssues fields kvs ≠ [] := by
  have hne : objIssues fields kvs ≠ [] := by
    intro hnil
    exact hbad (List.subset_nil.mp (hnil ▸ fieldIssues_subset_objIssues fields kvs f hf))
  have hemp : (objIssues fields kvs).isEmpty = false := by
    cases he : (objIssues fields kvs).isEmpty
    · rfl
    · exact absurd (List.isEmpty_iff.mp he) hne
  exact ⟨by simp [zObject, hemp], hne⟩

/-- A present field whose schema rejects its value with at least one
issue is a violated field. -/
theorem fieldIssues_ne_nil_of_check_error (kvs : List (String × JsValue)) (f : ZField)
    (fv : JsValue) (is : List ZodIssue) (hlf : lookupField kvs f.name = some fv)
    (herr : f.check fv = .error is) (hne : is ≠ []) : fieldIssues kvs f ≠ [] := by
  simp only [fieldIssues, hlf, herr]
  simpa using hne

/-- Running a list of numeric checks reports an issue whenever one of the
checks fails. -/
theorem numIssues_ne_nil (checks : List NumCheck) (q : ℚ) (c : NumCheck) (hc : c ∈ checks)
    (hfail : numCheckPasses c q = false) : numIssues checks q ≠ [] := by
  induction checks with
  | nil => cases hc
  | cons c0 cs ih =>
    simp only [numIssues, List.foldr_cons]
    rcases List.mem_cons.mp hc with h0 | h0
    · subst h0
      rw [hfail]
      simp
    · cases hpass : numCheckPasses c0 q
      · simp
      · simpa [numIssues] using ih h0

/-- A number failing one of its checks makes `zNumber` fail with the full
nonempty issue list. -/
theorem zNumber_error (checks : List NumCheck) (q : ℚ) (c : NumCheck) (hc : c ∈ checks)
    (hfail : numCheckPasses c q = false) :
    zNumber checks (.num q) = .error (numIssues checks q) ∧ numIssues checks q ≠ [] := by
  have hne := numIssues_ne_nil checks q c hc hfail
  have hemp : (numIssues checks q).isEmpty = false := by
    cases he : (numIssues checks q).isEmpty
    · rfl
    · exact absurd (List.isEmpty_iff.mp he) hne
  exact ⟨by simp [zNumber, hemp], hne⟩

/-- The `validateEvent` switch dispatches an object whose `type` property
is a registered tag to that tag's schema (with the thrown `ZodError`
caught into the result). -/
theorem validateEvent_dispatch (kvs : List (String × JsValue)) (tag : String)
    (fields : List ZField) (hs : (tag, fields) ∈ eventSchemas)
    (htag : lookupKey "type" kvs = some (.str tag)) :
    validateEvent (.obj kvs) = ofZod (zObject fields (.obj kvs)) := by
  simp only [eventSchemas, List.mem_cons, List.not_mem_nil, or_false,
    Prod.mk.injEq] at hs
  rcases hs with ⟨rfl, rfl⟩ | ⟨rfl, rfl⟩ | ⟨rfl, rfl⟩ | ⟨rfl, rfl⟩ | ⟨rfl, rfl⟩ | ⟨rfl, rfl⟩ <;>
    simp [validateEvent, typeProp, htag, jsTruthy, jsTypeofObject,
      EVENT_TYPES.ORDER_CREATED, EVENT_TYPES.ORDER_CONFIRMED, EVENT_TYPES.ORDER_SHIPPED,
      EVENT_TYPES.ORDER_CANCELLED, EVENT_TYPES.PAYMENT_AUTHORIZED, EVENT_TYPES.PAYMENT_FAILED,
      OrderCreatedSchema, OrderConfirmedSchema, OrderShippedSchema, OrderCancelledSchema,
      PaymentAuthorizedSchema, PaymentFailedSchema]

/-- When every element passes the item schema, the element pass collects
no issues. -/
theorem elemIssuesAux_eq_nil (item : Checker) (xs : List JsValue)
    (h : ∀ x ∈ xs, ∃ y, item x = .ok y) : ∀ n, elemIssuesAux item n xs = [] := by
  induction xs with
  | nil => intro n; rfl
  | cons x rest ih =>
    intro n
    obtain ⟨y, hy⟩ := h x (List.mem_cons_self x rest)
    simp [elemIssuesAux, hy, ih (fun z hz => h z (List.Mem.tail x hz)) (n + 1)]

/-- When some element is rejected with at least one issue, the element
pass collects at least one issue. -/
theorem elemIssuesAux_ne_nil (item : Checker) (xs : List JsValue) (x : JsValue)
    (hx : x ∈ xs) (is : List ZodIssue) (herr : item x = .error is) (hne : is ≠ []) :
    ∀ n, elemIssuesAux item n xs ≠ [] := by
  induction xs with
  | nil => cases hx
  | cons x0 rest ih =>
    intro n hnil
    simp only [elemIssuesAux] at hnil
    rw [List.append_eq_nil] at hnil
    rcases List.mem_cons.mp hx with h0 | h0
    · subst h0
      rw [herr] at hnil
      exact hne (List.map_eq_nil_iff.mp hnil.1)
    · exact ih h0 (n + 1) hnil.2

/-- A long-enough array all of whose elements validate is accepted, and
the output is the array of parsed elements. -/
theorem zArray_ok_of_items (minLen : Nat) (item : Checker) (xs : List JsValue)
    (hlen : minLen ≤ xs.length) (h : ∀ x ∈ xs, ∃ y, item x = .ok y) :
    zArray minLen item (.arr xs) = .ok (.arr (parseElems item xs)) := by
  have hiss : zArrayIssues minLen item xs = [] := by
    unfold zArrayIssues
    rw [if_neg (Nat.not_lt.mpr hlen), elemIssuesAux_eq_nil item xs h 0]
    rfl
  simp [zArray, hiss]

/-- An array rejected by the length check or by any element fails with
the full nonempty issue list. -/
theorem zArray_error_of_issues (minLen : Nat) (item : Checker) (xs : List JsValue)
    (hne : zArrayIssues minLen item xs ≠ []) :
    zArray minLen item (.arr xs) = .error (zArrayIssues minLen item xs) := by
  have hemp : (zArrayIssues minLen item xs).isEmpty = false := by
    cases he : (zArrayIssues minLen item xs).isEmpty
    · rfl
    · exact absurd (List.isEmpty_iff.mp he) hne
  simp [zArray, hemp]

/-- A too-short array makes the array issue list nonempty. -/
theorem zArrayIssues_ne_nil_of_short (minLen : Nat) (item : Checker) (xs : List JsValue)
    (hlen : xs.length < minLen) : zArrayIssues minLen item xs ≠ [] := by
  unfold zArrayIssues
  rw [if_pos hlen]
  simp

/-- A rejected element makes the array issue list nonempty. -/
theorem zArrayIssues_ne_nil_of_elem (minLen : Nat) (item : Checker) (xs : List JsValue)
    (x : JsValue) (hx : x ∈ xs) (is : List ZodIssue) (herr : item x = .error is)
    (hne : is ≠ []) : zArrayIssues minLen item xs ≠ [] := by
  intro hnil
  unfold zArrayIssues at hnil
  rw [List.append_eq_nil] at hnil
  exact elemIssuesAux_ne_nil item xs x hx is herr hne 0 hnil.2

/-- A result produced by the catch wrapper is a success exactly when the
underlying parse succeeded. -/
theorem ofZod_success (r : Except (List ZodIssue) JsValue) (d : JsValue)
    (h : ofZod r = .success d) : r = .ok d := by
  cases r with
  | ok y => cases h; rfl
  | error is => cases h

/-- A successful object parse yields exactly the stripped output object. -/
theorem zObject_ok_elim (fields : List ZField) (kvs : List (String × JsValue)) (d : JsValue)
    (h : zObject fields (.obj kvs) = .ok d) : d = .obj (objOutput fields kvs) := by
  by_cases he : (objIssues fields kvs).isEmpty
  · simp only [zObject, he, if_true] at h
    cases h; rfl
  · simp only [zObject, Bool.not_eq_true] at he
    simp only [zObject, he, Bool.false_eq_true, if_false] at h
    cases h

/-- Every binding of an object schema's output carries a declared field
name (unknown keys are stripped). -/
theorem objOutput_key_mem (fields : List ZField) (kvs : List (String × JsValue))
    (p : String × JsValue) (hp : p ∈ objOutput fields kvs) :
    p.1 ∈ fields.map ZField.name := by
  obtain ⟨f, hf, hout⟩ := List.mem_filterMap.mp hp
  have hname : p.1 = f.name := by
    unfold fieldOutput at hout
    split at hout
    · split at hout
      · cases hout; rfl
      · cases hout
    · cases hout
  rw [hname]
  exact List.mem_map_of_mem ZField.name hf

/-- A success of `validateEvent` on an object comes from one of the six
registered schemas accepting that object, with the object's `type`
property holding that schema's tag. -/
theorem validateEvent_success_schema (kvs : List (String × JsValue)) (d : JsValue)
    (h : validateEvent (.obj kvs) = .success d) :
    ∃ tf ∈ eventSchemas, lookupKey "type" kvs = some (.str tf.1) ∧
      zObject tf.2 (.obj kvs) = .ok d := by
  unfold validateEvent at h
  simp only [jsTruthy, jsTypeofObject, Bool.not_true, Bool.or_self, Bool.false_eq_true,
    if_false] at h
  split at h
  · cases h
  · rename_i tv htv
    have htv' : lookupKey "type" kvs = some tv := htv
    split at h
    · cases h
    · split at h
      · rename_i s
        split at h
        · rename_i he
          exact ⟨(EVENT_TYPES.ORDER_CREATED, OrderCreatedFields), List.Mem.head _,
            by rw [htv', he], ofZod_success _ d h⟩
        · split at h
          · rename_i he
            exact ⟨(EVENT_TYPES.ORDER_CONFIRMED, OrderConfirmedFields),
              List.Mem.tail _ (List.Mem.head _), by rw [htv', he], ofZod_success _ d h⟩
          · split at h
            · rename_i he
              exact ⟨(EVENT_TYPES.ORDER_SHIPPED, OrderShippedFields),
                List.Mem.tail _ (List.Mem.tail _ (List.Mem.head _)),
                by rw [htv', he], ofZod_success _ d h⟩
            · split at h
              · rename_i he
                exact ⟨(EVENT_TYPES.ORDER_CANCELLED, OrderCancelledFields),
                  List.Mem.tail _ (List.Mem.tail _ (List.Mem.tail _ (List.Mem.head _))),
                  by rw [htv', he], ofZod_success _ d h⟩
              · split at h
                · rename_i he
                  exact ⟨(EVENT_TYPES.PAYMENT_AUTHORIZED, PaymentAuthorizedFields),
                    List.Mem.tail _ (List.Mem.tail _ (List.Mem.tail _ (List.Mem.tail _
                      (List.Mem.head _)))), by rw [htv', he], ofZod_success _ d h⟩
                · split at h
                  · rename_i he
                    exact ⟨(EVENT_TYPES.PAYMENT_FAILED, PaymentFailedFields),
                      List.Mem.tail _ (List.Mem.tail _ (List.Mem.tail _ (List.Mem.tail _
                        (List.Mem.tail _ (List.Mem.head _))))), by rw [htv', he],
                      ofZod_success _ d h⟩
                  · cases h
      · cases h

/-- Every registered schema declares exactly the six shared top-level
keys, in order. -/
theorem eventSchemas_names (tf : String × List ZField) (hs : tf ∈ eventSchemas) :
    tf.2.map ZField.name = topLevelKeys := by
  simp only [eventSchemas, List.mem_cons, List.not_mem_nil, or_false] at hs
  rcases hs with rfl | rfl | rfl | rfl | rfl | rfl <;> rfl

/-- If any field of the schema selected by the type tag is violated, the
inbound validator returns the caught `ZodError` with the full collected
issue list. -/
theorem validateEvent_zodError_of_field (kvs : List (String × JsValue)) (tag : String)
    (fields : List ZField) (hs : (tag, fields) ∈ eventSchemas)
    (htag : lookupKey "type" kvs = some (.str tag)) (f : ZField) (hf : f ∈ fields)
    (hbad : fieldIssues kvs f ≠ []) :
    validateEvent (.obj kvs) = .failure (.zodError (objIssues fields kvs)) ∧
      objIssues fields kvs ≠ [] := by
  obtain ⟨herr, hne⟩ := zObject_error_of_field fields kvs f hf hbad
  rw [validateEvent_dispatch kvs tag fields hs htag, herr]
  exact ⟨rfl, hne⟩

/-!
Claim theorems.
-/

/-- C1: the claim says an otherwise-valid order.cancelled event whose
data.reason is the empty string fails validation. The code disagrees:
`OrderCancelledDataSchema` declares `reason: z.string()` without
`.min(1)`, so `validateEvent` accepts the spec's own failing scenario and
returns it as a success — contradicting the repository's test
"rejects order.cancelled event with empty reason". This theorem
evaluates the code at that failing input. -/
theorem c1_empty_reason_is_accepted :
    validateEvent emptyReasonEvent = .success emptyReasonEvent := by rfl

/-- C2: the claim says an explicitly supplied correlationId is never
replaced, an empty string included, which must then fail validation. The
legacy four-variant helper (`src/helpers/create-event.ts`) violates this:
its falsy check `correlationId || randomUUID()` silently replaces the
supplied empty string with the generated UUID and construction succeeds,
while the current six-variant factory keeps the empty string and fails
schema validation as the claim requires. This theorem evaluates both
factories at the failing input. -/
theorem c2_legacy_factory_replaces_empty_correlationId :
    (V1.buildBaseEvent EVENT_TYPES.ORDER_CANCELLED emptyCorrParams uuidOk tsOk =
      .obj [("type", .str EVENT_TYPES.ORDER_CANCELLED), ("orderId", .num 1),
            ("userId", .num 2), ("correlationId", .str uuidOk),
            ("timestamp", .str tsOk), ("data", cancelData)]) ∧
    (V1.createOrderEvent EVENT_TYPES.ORDER_CANCELLED emptyCorrParams uuidOk tsOk =
      .ok (.obj [("type", .str EVENT_TYPES.ORDER_CANCELLED), ("orderId", .num 1),
            ("userId", .num 2), ("correlationId", .str uuidOk),
            ("timestamp", .str tsOk), ("data", cancelData)])) ∧
    (buildBaseEvent EVENT_TYPES.ORDER_CANCELLED emptyCorrParams uuidOk tsOk =
      .obj [("type", .str EVENT_TYPES.ORDER_CANCELLED), ("orderId", .num 1),
            ("userId", .num 2), ("correlationId", .str ""),
            ("timestamp", .str tsOk), ("data", cancelData)]) ∧
    (createOrderEvent EVENT_TYPES.ORDER_CANCELLED emptyCorrParams uuidOk tsOk =
      .error (.zodError [⟨[.key "correlationId"], "Invalid uuid"⟩])) :=
  ⟨rfl, rfl, rfl, rfl⟩

/-- C4: on every input value whatsoever, both revisions of
`validateEvent` return a tagged result that is either a success carrying
the validated event or a failure carrying the error — the functions are
total and never escape with an unhandled fault. -/
theorem c4_validateEvent_always_returns_tagged_result (v : JsValue) :
    ((∃ d, validateEvent v = .success d) ∨ (∃ e, validateEvent v = .failure e)) ∧
    ((∃ d, V1.validateEvent v = .success d) ∨ (∃ e, V1.validateEvent v = .failure e)) := by
  constructor
  · cases h : validateEvent v with
    | success d => exact Or.inl ⟨d, rfl⟩
    | failure e => exact Or.inr ⟨e, rfl⟩
  · cases h : V1.validateEvent v with
    | success d => exact Or.inl ⟨d, rfl⟩
    | failure e => exact Or.inr ⟨e, rfl⟩

/-- C8: for each of the six event types, the minimally valid event (all
required fields present, all optional payload fields absent) passes
validation unchanged, and its `type` property is the requested tag. -/
theorem c8_minimal_events_validate :
    (validateEvent evCreated = .success evCreated ∧
      typeProp evCreated = some (.str EVENT_TYPES.ORDER_CREATED)) ∧
    (validateEvent evConfirmed = .success evConfirmed ∧
      typeProp evConfirmed = some (.str EVENT_TYPES.ORDER_CONFIRMED)) ∧
    (validateEvent evShipped = .success evShipped ∧
      typeProp evShipped = some (.str EVENT_TYPES.ORDER_SHIPPED)) ∧
    (validateEvent evCancelled = .success evCancelled ∧
      typeProp evCancelled = some (.str EVENT_TYPES.ORDER_CANCELLED)) ∧
    (validateEvent evPayAuthorized = .success evPayAuthorized ∧
      typeProp evPayAuthorized = some (.str EVENT_TYPES.PAYMENT_AUTHORIZED)) ∧
    (validateEvent evPayFailed = .success evPayFailed ∧
      typeProp evPayFailed = some (.str EVENT_TYPES.PAYMENT_FAILED)) :=
  ⟨⟨rfl, rfl⟩, ⟨rfl, rfl⟩, ⟨rfl, rfl⟩, ⟨rfl, rfl⟩, ⟨rfl, rfl⟩, ⟨rfl, rfl⟩⟩

/-- C5: an input whose type tag is not one of the six known variants is
rejected by `validateEvent` with a plain error whose message names the
unknown tag (distinct from a caught `ZodError`), and both factory entry
points throw an unknown-event-type error naming the tag. -/
theorem c5_unknown_tag_failure (kvs : List (String × JsValue)) (tag : String)
    (p : CreateEventParams) (genUuid genTs : String)
    (htag : lookupKey "type" kvs = some (.str tag)) (hne : tag ≠ "")
    (hunk : tag ∉ [EVENT_TYPES.ORDER_CREATED, EVENT_TYPES.ORDER_CONFIRMED,
      EVENT_TYPES.ORDER_SHIPPED, EVENT_TYPES.ORDER_CANCELLED,
      EVENT_TYPES.PAYMENT_AUTHORIZED, EVENT_TYPES.PAYMENT_FAILED]) :
    validateEvent (.obj kvs) = .failure (.error ("Unknown event type: " ++ tag)) ∧
    createOrderEvent tag p genUuid genTs = .error (.error ("Unknown event type: " ++ tag)) ∧
    createPaymentEvent tag p genUuid genTs = .error (.error ("Unknown event type: " ++ tag)) := by
  simp only [List.mem_cons, List.not_mem_nil, or_false, not_or] at hunk
  obtain ⟨h1, h2, h3, h4, h5, h6⟩ := hunk
  refine ⟨?_, ?_, ?_⟩
  · simp [validateEvent, typeProp, htag, jsTruthy, jsTypeofObject, hne, h1, h2, h3, h4, h5, h6]
  · simp [createOrderEvent, h1, h2, h3, h4]
  · simp [createPaymentEvent, h5, h6]

/-- C5 witness: the bogus tag of the spec scenario is rejected everywhere
with the message naming it. -/
theorem c5_unknown_tag_failure_witness :
    validateEvent (.obj [("type", .str "bogus.tag")]) =
      .failure (.error ("Unknown event type: " ++ "bogus.tag")) ∧
    createOrderEvent "bogus.tag" emptyCorrParams uuidOk tsOk =
      .error (.error ("Unknown event type: " ++ "bogus.tag")) ∧
    createPaymentEvent "bogus.tag" emptyCorrParams uuidOk tsOk =
      .error (.error ("Unknown event type: " ++ "bogus.tag")) :=
  c5_unknown_tag_failure [("type", .str "bogus.tag")] "bogus.tag" emptyCorrParams uuidOk tsOk
    rfl (by decide) (by decide)

/-- C6: `validateEvent` rejects null, undefined and every non-object
value with the non-null-object message; an object with no type property
or a falsy (null, undefined or empty) type is rejected with the
type-required message; the two envelope messages are distinguishable and
neither comes from a schema lookup. -/
theorem c6_envelope_failures :
    (validateEvent .null = .failure (.error "Event must be a non-null object")) ∧
    (validateEvent .undef = .failure (.error "Event must be a non-null object")) ∧
    (∀ q : ℚ, validateEvent (.num q) = .failure (.error "Event must be a non-null object")) ∧
    (∀ s : String, validateEvent (.str s) = .failure (.error "Event must be a non-null object")) ∧
    (∀ b : Bool, validateEvent (.bool b) = .failure (.error "Event must be a non-null object")) ∧
    (∀ kvs, lookupKey "type" kvs = none →
      validateEvent (.obj kvs) = .failure (.error "Event type is required")) ∧
    (∀ kvs tv, lookupKey "type" kvs = some tv → jsTruthy tv = false →
      validateEvent (.obj kvs) = .failure (.error "Event type is required")) ∧
    ("Event must be a non-null object" ≠ "Event type is required") := by
  refine ⟨rfl, rfl, ?_, ?_, ?_, ?_, ?_, by decide⟩
  · intro q
    simp [validateEvent, jsTypeofObject]
  · intro s
    simp [validateEvent, jsTypeofObject]
  · intro b
    simp [validateEvent, jsTypeofObject]
  · intro kvs h
    simp [validateEvent, typeProp, jsTruthy, jsTypeofObject, h]
  · intro kvs tv h htv
    have hg : jsTruthy (JsValue.obj kvs) = true := rfl
    simp [validateEvent, typeProp, jsTypeofObject, h, htv, hg]

/-- C6 witness: the spec's probe inputs are each rejected with the
expected distinguishable envelope message. -/
theorem c6_envelope_failures_witness :
    validateEvent (.num 42) = .failure (.error "Event must be a non-null object") ∧
    validateEvent (.obj []) = .failure (.error "Event type is required") ∧
    validateEvent (.obj [("type", .str "")]) = .failure (.error "Event type is required") :=
  ⟨c6_envelope_failures.2.2.1 42,
   c6_envelope_failures.2.2.2.2.2.1 [] rfl,
   c6_envelope_failures.2.2.2.2.2.2.1 [("type", .str "")] (.str "") rfl (by decide)⟩

/-- C3: whenever a dispatched event violates a declared field, the
failure returned by `validateEvent` is the caught `ZodError` whose issue
list contains every issue of that field — in particular, when several
fields are violated at once, every violated field is described, not just
the first one encountered. -/
theorem c3_validateEvent_collects_all_violations (kvs : List (String × JsValue))
    (tag : String) (fields : List ZField) (f : ZField)
    (hs : (tag, fields) ∈ eventSchemas)
    (htag : lookupKey "type" kvs = some (.str tag))
    (hf : f ∈ fields) (hbad : fieldIssues kvs f ≠ []) :
    ∃ issues, validateEvent (.obj kvs) = .failure (.zodError issues) ∧
      ∀ i ∈ fieldIssues kvs f, i ∈ issues := by
  obtain ⟨heq, _⟩ := validateEvent_zodError_of_field kvs tag fields hs htag f hf hbad
  exact ⟨objIssues fields kvs, heq,
    fun i hi => fieldIssues_subset_objIssues fields kvs f hf hi⟩

/-- C3 witness: an order.cancelled event violating two distinct fields
(orderId = 0 and an out-of-enum data.cancelledBy); the single returned
failure contains the issues of both fields. -/
theorem c3_validateEvent_collects_all_violations_witness :
    (∃ issues, validateEvent (.obj twoBadKvs) = .failure (.zodError issues) ∧
      ∀ i ∈ fieldIssues twoBadKvs orderIdField, i ∈ issues) ∧
    (∃ issues, validateEvent (.obj twoBadKvs) = .failure (.zodError issues) ∧
      ∀ i ∈ fieldIssues twoBadKvs ⟨"data", false, OrderCancelledDataSchema⟩, i ∈ issues) :=
  ⟨c3_validateEvent_collects_all_violations twoBadKvs EVENT_TYPES.ORDER_CANCELLED
      OrderCancelledFields orderIdField
      (List.Mem.tail _ (List.Mem.tail _ (List.Mem.tail _ (List.Mem.head _))))
      rfl (List.mem_append_left _ (List.Mem.tail _ (List.Mem.head _))) (by decide),
   c3_validateEvent_collects_all_violations twoBadKvs EVENT_TYPES.ORDER_CANCELLED
      OrderCancelledFields ⟨"data", false, OrderCancelledDataSchema⟩
      (List.Mem.tail _ (List.Mem.tail _ (List.Mem.tail _ (List.Mem.head _))))
      rfl (List.mem_append_right _ (List.Mem.head _)) (by decide)⟩

/-- C7: for every registered event type, an orderId (or userId) that is
not a strictly positive integer — zero, negative or non-integral — makes
validation fail. -/
theorem c7_ids_must_be_positive_integers (kvs : List (String × JsValue)) (tag : String)
    (fields : List ZField) (q : ℚ)
    (hs : (tag, fields) ∈ eventSchemas)
    (htag : lookupKey "type" kvs = some (.str tag))
    (hid : lookupField kvs "orderId" = some (.num q) ∨
      lookupField kvs "userId" = some (.num q))
    (hbad : ¬(q.den = 1 ∧ 0 < q)) :
    ∃ issues, validateEvent (.obj kvs) = .failure (.zodError issues) ∧ issues ≠ [] := by
  have hmem : orderIdField ∈ fields ∧ userIdField ∈ fields := by
    simp only [eventSchemas, List.mem_cons, List.not_mem_nil, or_false,
      Prod.mk.injEq] at hs
    rcases hs with ⟨_, rfl⟩ | ⟨_, rfl⟩ | ⟨_, rfl⟩ | ⟨_, rfl⟩ | ⟨_, rfl⟩ | ⟨_, rfl⟩ <;>
      exact ⟨List.mem_append_left _ (List.Mem.tail _ (List.Mem.head _)),
        List.mem_append_left _ (List.Mem.tail _ (List.Mem.tail _ (List.Mem.head _)))⟩
  have hs' : (tag, fields) ∈ eventSchemas := hs
  obtain ⟨c, hc, hfail⟩ :
      ∃ c ∈ [NumCheck.int, NumCheck.positive], numCheckPasses c q = false := by
    rcases Decidable.not_and_iff_or_not.mp hbad with hden | hpos
    · exact ⟨.int, List.Mem.head _, by simp [numCheckPasses, hden]⟩
    · exact ⟨.positive, List.Mem.tail _ (List.Mem.head _), by simp [numCheckPasses, hpos]⟩
  obtain ⟨herrNum, hneNum⟩ := zNumber_error [.int, .positive] q c hc hfail
  rcases hid with hlf | hlf
  · have hfi : fieldIssues kvs orderIdField ≠ [] :=
      fieldIssues_ne_nil_of_check_error kvs orderIdField (.num q) _ hlf herrNum hneNum
    obtain ⟨heq, hne⟩ :=
      validateEvent_zodError_of_field kvs tag fields hs' htag orderIdField hmem.1 hfi
    exact ⟨objIssues fields kvs, heq, hne⟩
  · have hfi : fieldIssues kvs userIdField ≠ [] :=
      fieldIssues_ne_nil_of_check_error kvs userIdField (.num q) _ hlf herrNum hneNum
    obtain ⟨heq, hne⟩ :=
      validateEvent_zodError_of_field kvs tag fields hs' htag userIdField hmem.2 hfi
    exact ⟨objIssues fields kvs, heq, hne⟩

/-- C7 witness: orderId = 0 on an order.shipped event and userId = -1 on
a payment.failed event both fail validation. -/
theorem c7_ids_must_be_positive_integers_witness :
    (∃ issues, validateEvent (.obj badIdKvs) = .failure (.zodError issues) ∧ issues ≠ []) ∧
    (∃ issues, validateEvent (.obj [("type", .str "payment.failed"), ("orderId", .num 1),
        ("userId", .num (-1)), ("correlationId", .str uuidOk), ("timestamp", .str tsOk),
        ("data", .obj [("reason", .str "declined"), ("retryable", .bool true)])]) =
      .failure (.zodError issues) ∧ issues ≠ []) :=
  ⟨c7_ids_must_be_positive_integers badIdKvs EVENT_TYPES.ORDER_SHIPPED OrderShippedFields 0
      (List.Mem.tail _ (List.Mem.tail _ (List.Mem.head _))) rfl (Or.inl rfl) (by decide),
   c7_ids_must_be_positive_integers _ EVENT_TYPES.PAYMENT_FAILED PaymentFailedFields (-1)
      (List.Mem.tail _ (List.Mem.tail _ (List.Mem.tail _ (List.Mem.tail _
        (List.Mem.tail _ (List.Mem.head _)))))) rfl (Or.inr rfl) (by decide)⟩

/-- When the items value of an order.created / order.confirmed payload
is rejected by the item-array schema, the whole event is rejected. -/
theorem validateEvent_fails_of_bad_items (kvs dkvs : List (String × JsValue)) (tag : String)
    (fields : List ZField)
    (hs2 : (tag, fields) ∈ [(EVENT_TYPES.ORDER_CREATED, OrderCreatedFields),
      (EVENT_TYPES.ORDER_CONFIRMED, OrderConfirmedFields)])
    (htag : lookupKey "type" kvs = some (.str tag))
    (hdata : lookupField kvs "data" = some (.obj dkvs))
    (hitems : ∃ v, lookupField dkvs "items" = some v ∧
      ∃ is, zArray 1 OrderItemSchema v = .error is ∧ is ≠ []) :
    ∃ issues, validateEvent (.obj kvs) = .failure (.zodError issues) ∧ issues ≠ [] := by
  obtain ⟨v, hlv, is, herr, hne⟩ := hitems
  have hItems : fieldIssues dkvs (⟨"items", false, zArray 1 OrderItemSchema⟩ : ZField) ≠ [] :=
    fieldIssues_ne_nil_of_check_error dkvs _ v is hlv herr hne
  simp only [List.mem_cons, List.not_mem_nil, or_false, Prod.mk.injEq] at hs2
  rcases hs2 with ⟨rfl, rfl⟩ | ⟨rfl, rfl⟩
  · obtain ⟨herrD, hneD⟩ :=
      zObject_error_of_field OrderCreatedDataFields dkvs _ (List.Mem.head _) hItems
    have hData : fieldIssues kvs (⟨"data", false, OrderCreatedDataSchema⟩ : ZField) ≠ [] :=
      fieldIssues_ne_nil_of_check_error kvs _ (.obj dkvs) _ hdata herrD hneD
    obtain ⟨heq, hneO⟩ := validateEvent_zodError_of_field kvs EVENT_TYPES.ORDER_CREATED
      OrderCreatedFields (List.Mem.head _) htag _
      (List.mem_append_right _ (List.Mem.head _)) hData
    exact ⟨objIssues OrderCreatedFields kvs, heq, hneO⟩
  · obtain ⟨herrD, hneD⟩ :=
      zObject_error_of_field OrderConfirmedDataFields dkvs _ (List.Mem.head _) hItems
    have hData : fieldIssues kvs (⟨"data", false, OrderConfirmedDataSchema⟩ : ZField) ≠ [] :=
      fieldIssues_ne_nil_of_check_error kvs _ (.obj dkvs) _ hdata herrD hneD
    obtain ⟨heq, hneO⟩ := validateEvent_zodError_of_field kvs EVENT_TYPES.ORDER_CONFIRMED
      OrderConfirmedFields (List.Mem.tail _ (List.Mem.head _)) htag _
      (List.mem_append_right _ (List.Mem.head _)) hData
    exact ⟨objIssues OrderConfirmedFields kvs, heq, hneO⟩

/-- A malformed order item — productId or quantity not a strictly
positive integer, or price not positive — is rejected by the item schema
with a nonempty issue list. -/
theorem orderItem_error_of_bad_field (ikvs : List (String × JsValue)) (q : ℚ)
    (hbaditem : ((lookupField ikvs "productId" = some (.num q) ∨
        lookupField ikvs "quantity" = some (.num q)) ∧ ¬(q.den = 1 ∧ 0 < q)) ∨
      (lookupField ikvs "price" = some (.num q) ∧ ¬0 < q)) :
    OrderItemSchema (.obj ikvs) = .error (objIssues OrderItemFields ikvs) ∧
      objIssues OrderItemFields ikvs ≠ [] := by
  rcases hbaditem with ⟨hlf, hbad⟩ | ⟨hlf, hbad⟩
  · obtain ⟨c, hc, hfail⟩ :
        ∃ c ∈ [NumCheck.int, NumCheck.positive], numCheckPasses c q = false := by
      rcases Decidable.not_and_iff_or_not.mp hbad with hden | hpos
      · exact ⟨.int, List.Mem.head _, by simp [numCheckPasses, hden]⟩
      · exact ⟨.positive, List.Mem.tail _ (List.Mem.head _), by simp [numCheckPasses, hpos]⟩
    obtain ⟨herrNum, hneNum⟩ := zNumber_error [.int, .positive] q c hc hfail
    rcases hlf with hlf | hlf
    · exact zObject_error_of_field OrderItemFields ikvs
        ⟨"productId", false, zNumber [.int, .positive]⟩ (List.Mem.head _)
        (fieldIssues_ne_nil_of_check_error ikvs _ (.num q) _ hlf herrNum hneNum)
    · exact zObject_error_of_field OrderItemFields ikvs
        ⟨"quantity", false, zNumber [.int, .positive]⟩ (List.Mem.tail _ (List.Mem.head _))
        (fieldIssues_ne_nil_of_check_error ikvs _ (.num q) _ hlf herrNum hneNum)
  · have hfail : numCheckPasses NumCheck.positive q = false := by
      simp [numCheckPasses, hbad]
    obtain ⟨herrNum, hneNum⟩ := zNumber_error [.positive] q .positive (List.Mem.head _) hfail
    exact zObject_error_of_field OrderItemFields ikvs
      ⟨"price", false, zNumber [.positive]⟩
      (List.Mem.tail _ (List.Mem.tail _ (List.Mem.head _)))
      (fieldIssues_ne_nil_of_check_error ikvs _ (.num q) _ hlf herrNum hneNum)

/-- C9: for order.created and order.confirmed, (a) an empty items list
is rejected; (b) an items list of length at least one, all of whose
items are well-formed, passes the items schema; (c) any item whose
productId or quantity is not a strictly positive integer, or whose price
is not positive, makes validation of the whole event fail. -/
theorem c9_items_list_constraints :
    (∀ (kvs dkvs : List (String × JsValue)) (tag : String) (fields : List ZField),
      (tag, fields) ∈ [(EVENT_TYPES.ORDER_CREATED, OrderCreatedFields),
        (EVENT_TYPES.ORDER_CONFIRMED, OrderConfirmedFields)] →
      lookupKey "type" kvs = some (.str tag) →
      lookupField kvs "data" = some (.obj dkvs) →
      lookupField dkvs "items" = some (.arr []) →
      ∃ issues, validateEvent (.obj kvs) = .failure (.zodError issues) ∧ issues ≠ []) ∧
    (∀ xs : List JsValue, xs ≠ [] → (∀ x ∈ xs, ∃ y, OrderItemSchema x = .ok y) →
      zArray 1 OrderItemSchema (.arr xs) = .ok (.arr (parseElems OrderItemSchema xs))) ∧
    (∀ (kvs dkvs ikvs : List (String × JsValue)) (tag : String) (fields : List ZField)
        (xs : List JsValue) (q : ℚ),
      (tag, fields) ∈ [(EVENT_TYPES.ORDER_CREATED, OrderCreatedFields),
        (EVENT_TYPES.ORDER_CONFIRMED, OrderConfirmedFields)] →
      lookupKey "type" kvs = some (.str tag) →
      lookupField kvs "data" = some (.obj dkvs) →
      lookupField dkvs "items" = some (.arr xs) →
      (JsValue.obj ikvs) ∈ xs →
      (((lookupField ikvs "productId" = some (.num q) ∨
          lookupField ikvs "quantity" = some (.num q)) ∧ ¬(q.den = 1 ∧ 0 < q)) ∨
        (lookupField ikvs "price" = some (.num q) ∧ ¬0 < q)) →
      ∃ issues, validateEvent (.obj kvs) = .failure (.zodError issues) ∧ issues ≠ []) := by
  refine ⟨?_, ?_, ?_⟩
  · intro kvs dkvs tag fields hs2 htag hdata hitems
    refine validateEvent_fails_of_bad_items kvs dkvs tag fields hs2 htag hdata
      ⟨.arr [], hitems, zArrayIssues 1 OrderItemSchema [], ?_, ?_⟩
    · exact zArray_error_of_issues 1 OrderItemSchema []
        (zArrayIssues_ne_nil_of_short 1 OrderItemSchema [] (by decide))
    · exact zArrayIssues_ne_nil_of_short 1 OrderItemSchema [] (by decide)
  · intro xs hne hok
    exact zArray_ok_of_items 1 OrderItemSchema xs (List.length_pos.mpr hne) hok
  · intro kvs dkvs ikvs tag fields xs q hs2 htag hdata hitems hx hbaditem
    obtain ⟨herrI, hneI⟩ := orderItem_error_of_bad_field ikvs q hbaditem
    have hneArr : zArrayIssues 1 OrderItemSchema xs ≠ [] :=
      zArrayIssues_ne_nil_of_elem 1 OrderItemSchema xs (.obj ikvs) hx _ herrI hneI
    exact validateEvent_fails_of_bad_items kvs dkvs tag fields hs2 htag hdata
      ⟨.arr xs, hitems, zArrayIssues 1 OrderItemSchema xs,
        zArray_error_of_issues 1 OrderItemSchema xs hneArr, hneArr⟩

/-- C9 witness: the empty items list on an otherwise valid order.created
event fails validation, and a one-item list with price 0 fails too. -/
theorem c9_items_list_constraints_witness :
    (∃ issues, validateEvent (.obj emptyItemsKvs) = .failure (.zodError issues) ∧
      issues ≠ []) ∧
    (∃ issues, validateEvent (.obj (baseKvs EVENT_TYPES.ORDER_CONFIRMED
        (.obj [("items", .arr [.obj [("productId", .num 1), ("quantity", .num 1),
          ("price", .num 0)]]), ("totalAmount", .num 40)]))) =
      .failure (.zodError issues) ∧ issues ≠ []) :=
  ⟨c9_items_list_constraints.1 emptyItemsKvs
      [("items", .arr []), ("totalAmount", .num 40)] EVENT_TYPES.ORDER_CREATED
      OrderCreatedFields (List.Mem.head _) rfl rfl rfl,
   c9_items_list_constraints.2.2 (baseKvs EVENT_TYPES.ORDER_CONFIRMED
        (.obj [("items", .arr [.obj [("productId", .num 1), ("quantity", .num 1),
          ("price", .num 0)]]), ("totalAmount", .num 40)]))
      [("items", .arr [.obj [("productId", .num 1), ("quantity", .num 1),
        ("price", .num 0)]]), ("totalAmount", .num 40)]
      [("productId", .num 1), ("quantity", .num 1), ("price", .num 0)]
      EVENT_TYPES.ORDER_CONFIRMED OrderConfirmedFields
      [.obj [("productId", .num 1), ("quantity", .num 1), ("price", .num 0)]] 0
      (List.Mem.tail _ (List.Mem.head _)) rfl rfl rfl (List.Mem.head _)
      (Or.inr ⟨rfl, by decide⟩)⟩

/-- C10: unknown top-level sibling fields are tolerated and stripped:
appending an extra binding under an undeclared key to a successfully
validating event does not change the (successful) result, and every
binding of a returned validated object carries one of the six declared
top-level keys. -/
theorem c10_unknown_top_level_keys_tolerated_and_stripped :
    (∀ (kvs : List (String × JsValue)) (k : String) (v d : JsValue),
      validateEvent (.obj kvs) = .success d → k ∉ topLevelKeys →
      validateEvent (.obj (kvs ++ [(k, v)])) = .success d) ∧
    (∀ (kvs out : List (String × JsValue)),
      validateEvent (.obj kvs) = .success (.obj out) →
      ∀ p ∈ out, p.1 ∈ topLevelKeys) := by
  constructor
  · intro kvs k v d hsucc hk
    obtain ⟨tf, hmem, htag, hok⟩ := validateEvent_success_schema kvs d hsucc
    have hktype : k ≠ "type" := fun e => hk (e ▸ List.Mem.head _)
    have hnames : ∀ f ∈ tf.2, f.name ≠ k := by
      intro f hf e
      exact hk (e ▸ (eventSchemas_names tf hmem ▸ List.mem_map_of_mem ZField.name hf))
    have htag' : lookupKey "type" (kvs ++ [(k, v)]) = some (.str tf.1) := by
      rw [lookupKey_append_of_ne "type" k (fun e => hktype e.symm) kvs v, htag]
    rw [validateEvent_dispatch (kvs ++ [(k, v)]) tf.1 tf.2 hmem htag',
      zObject_append_of_ne tf.2 k hnames kvs v, hok]
    rfl
  · intro kvs out hsucc p hp
    obtain ⟨tf, hmem, _, hok⟩ := validateEvent_success_schema kvs (.obj out) hsucc
    have hout : JsValue.obj out = .obj (objOutput tf.2 kvs) := zObject_ok_elim tf.2 kvs _ hok
    have hout' : out = objOutput tf.2 kvs := by
      cases hout
      rfl
    rw [← eventSchemas_names tf hmem]
    exact objOutput_key_mem tf.2 kvs p (hout' ▸ hp)

/-- C10 witness: an extra top-level property on the minimal order.shipped
event is tolerated, the validated output strips it, and every key of the
output is a declared one. -/
theorem c10_unknown_top_level_keys_witness :
    validateEvent (.obj (shippedKvs ++ [("extra", .str "x")])) = .success evShipped ∧
    (∀ p ∈ shippedKvs, p.1 ∈ topLevelKeys) :=
  ⟨c10_unknown_top_level_keys_tolerated_and_stripped.1 shippedKvs "extra" (.str "x")
      evShipped rfl (by decide),
   c10_unknown_top_level_keys_tolerated_and_stripped.2 shippedKvs shippedKvs rfl⟩

/-- C4 witness: the tagged-result theorem instantiated at a malformed
concrete input. -/
theorem c4_validateEvent_always_returns_tagged_result_witness :
    ((∃ d, validateEvent .null = .success d) ∨ (∃ e, validateEvent .null = .failure e)) ∧
    ((∃ d, V1.validateEvent .null = .success d) ∨ (∃ e, V1.validateEvent .null = .failure e)) :=
  c4_validateEvent_always_returns_tagged_result .null
